import Mathlib

/-!
Shallow embedding of the decision logic of `src/smart_hvac_system.py`
(the season classifier `determine_season` and the climate action decision
engine `determine_actions`), together with theorems checking the
specified properties of that logic.

Temperatures, humidities and thresholds are Python numbers compared with
`<`, `<=`, `>`; they are modelled as rationals.  The AQI is either absent
(`None` in the source, from a failed fetch) or an integer; the source
guard `if aqi and aqi > AQI_THRESHOLD` uses Python truthiness, under
which both `None` and `0` are falsy, so the embedding tests
`a ≠ 0 ∧ a > AQI_THRESHOLD` on a present value `some a`.
Device states are the literal strings "ON" / "OFF" the source assigns,
returned as a 4-tuple (AC, humidifier, dehumidifier, air purifier) in the
source's order.
-/

set_option linter.unusedVariables false

/-- Source constant `AQI_THRESHOLD = 100` (line 33): AQI threshold to
turn ON the air purifier. -/
def AQI_THRESHOLD : ℤ := 100

/-- Embedding of `determine_season` (lines 60-68): season from outdoor
temperature, via the source's if/elif chain. -/
def determine_season (temperature : ℚ) : String :=
  if temperature < 15 then
    "Winter"
  else if (15 ≤ temperature ∧ temperature ≤ 20) ∨
          (26 ≤ temperature ∧ temperature ≤ 30) then
    "Mild"
  else if 20 ≤ temperature ∧ temperature ≤ 26 then
    "Energy Saving"
  else
    "Summer"

/-- Embedding of `determine_actions` (lines 71-100).  Each status starts
"OFF" and is conditionally overwritten to "ON" exactly as in the source;
the humidifier/dehumidifier pair mirrors the if/elif chain with no else
branch.  The unoccupied branch only emits a UI warning in the source and
returns the all-OFF tuple.  Note the function receives no AQI-threshold
argument: the source compares the AQI against the module constant
`AQI_THRESHOLD`, not against the sidebar slider value. -/
def determine_actions (outdoor_temp outdoor_humidity : ℚ) (aqi : Option ℤ)
    (preferred_min preferred_max outdoor_threshold : ℚ)
    (season : String) (is_room_occupied : Bool) :
    String × String × String × String :=
  if is_room_occupied then
    let ac_status : String :=
      if outdoor_temp > outdoor_threshold then "ON" else "OFF"
    let humidity_pair : String × String :=
      if season = "Winter" then
        if outdoor_humidity < 30 then ("ON", "OFF")
        else if outdoor_humidity > 50 then ("OFF", "ON")
        else ("OFF", "OFF")
      else if season = "Summer" then
        if outdoor_humidity < 40 then ("ON", "OFF")
        else if outdoor_humidity > 60 then ("OFF", "ON")
        else ("OFF", "OFF")
      else ("OFF", "OFF")
    let air_purifier_status : String :=
      match aqi with
      | none => "OFF"
      | some a => if a ≠ 0 ∧ a > AQI_THRESHOLD then "ON" else "OFF"
    (ac_status, humidity_pair.1, humidity_pair.2, air_purifier_status)
  else
    ("OFF", "OFF", "OFF", "OFF")

/-- AC component of the returned tuple. -/
def ac_status (r : String × String × String × String) : String := r.1

/-- Humidifier component of the returned tuple. -/
def humidifier_status (r : String × String × String × String) : String :=
  r.2.1

/-- Dehumidifier component of the returned tuple. -/
def dehumidifier_status (r : String × String × String × String) : String :=
  r.2.2.1

/-- Air purifier component of the returned tuple. -/
def air_purifier_status (r : String × String × String × String) : String :=
  r.2.2.2

/-- Temperatures below 15 classify as "Winter". -/
theorem season_of_winter (t : ℚ) (h : t < 15) : determine_season t = "Winter" := by
  unfold determine_season; rw [if_pos h]

/-- Temperatures in the closed band [15, 20] classify as "Mild". -/
theorem season_of_mild_low (t : ℚ) (h1 : 15 ≤ t) (h2 : t ≤ 20) :
    determine_season t = "Mild" := by
  unfold determine_season
  rw [if_neg (by linarith), if_pos (Or.inl ⟨h1, h2⟩)]

/-- Temperatures strictly between 20 and 26 classify as "Energy Saving". -/
theorem season_of_energy_saving (t : ℚ) (h1 : 20 < t) (h2 : t < 26) :
    determine_season t = "Energy Saving" := by
  unfold determine_season
  rw [if_neg (by linarith), if_neg (by rintro (⟨a, b⟩ | ⟨a, b⟩) <;> linarith),
    if_pos ⟨le_of_lt h1, le_of_lt h2⟩]

/-- Temperatures in the closed band [26, 30] classify as "Mild" (the
elif `26 <= temperature <= 30` fires before the "Energy Saving" test,
so 26 itself is "Mild"). -/
theorem season_of_mild_high (t : ℚ) (h1 : 26 ≤ t) (h2 : t ≤ 30) :
    determine_season t = "Mild" := by
  unfold determine_season
  rw [if_neg (by linarith), if_pos (Or.inr ⟨h1, h2⟩)]

/-- Temperatures above 30 classify as "Summer". -/
theorem season_of_summer (t : ℚ) (h : 30 < t) : determine_season t = "Summer" := by
  unfold determine_season
  rw [if_neg (by linarith), if_neg (by rintro (⟨a, b⟩ | ⟨a, b⟩) <;> linarith),
    if_neg (by rintro ⟨a, b⟩; linarith)]

/-- C1: with `occupied = false`, `determine_actions` returns every device
state OFF (AC, humidifier, dehumidifier, air purifier), whatever the
temperature, humidity, AQI, preferences and season are. -/
theorem c1_unoccupied_all_off
    (outdoor_temp outdoor_humidity : ℚ) (aqi : Option ℤ)
    (preferred_min preferred_max outdoor_threshold : ℚ) (season : String) :
    determine_actions outdoor_temp outdoor_humidity aqi
      preferred_min preferred_max outdoor_threshold season false =
      ("OFF", "OFF", "OFF", "OFF") := by
  rfl

/-- C2 (code evaluated at the failing input): `determine_actions` takes
no AQI-threshold parameter and compares the AQI with the fixed constant
`AQI_THRESHOLD = 100`, so with AQI 150 the purifier turns ON no matter
what the user's sidebar AQI-threshold slider (e.g. 200) says; an absent
AQI leaves the purifier OFF without error. -/
theorem c2_purifier_uses_constant_threshold :
    air_purifier_status
      (determine_actions 22 50 (some 150) 22 26 27 "Energy Saving" true) = "ON" ∧
    air_purifier_status
      (determine_actions 22 50 none 22 26 27 "Energy Saving" true) = "OFF" := by
  constructor <;> rfl

/-- C3: for every input (any humidity, band, occupancy, thresholds), the
humidifier and the dehumidifier are never simultaneously ON: at least one
of the two statuses is "OFF". -/
theorem c3_humidifier_dehumidifier_exclusive
    (t h : ℚ) (aqi : Option ℤ) (pmin pmax thr : ℚ) (s : String) (occ : Bool) :
    humidifier_status (determine_actions t h aqi pmin pmax thr s occ) = "OFF" ∨
    dehumidifier_status (determine_actions t h aqi pmin pmax thr s occ) = "OFF" := by
  unfold determine_actions humidifier_status dehumidifier_status
  rcases occ with _ | _
  · simp
  · simp only [if_true]
    split_ifs <;> simp

/-- C4: `determine_season` is total and assigns every temperature exactly
one of the four bands; the boundary values 15, 20, 26 and 30 each resolve
to exactly one band (all four land in "Mild"). -/
theorem c4_season_total_partition :
    (∀ t : ℚ, ∃! s : String,
      s ∈ (["Winter", "Mild", "Energy Saving", "Summer"] : List String) ∧
        determine_season t = s) ∧
    determine_season 15 = "Mild" ∧ determine_season 20 = "Mild" ∧
    determine_season 26 = "Mild" ∧ determine_season 30 = "Mild" := by
  refine ⟨fun t => ⟨determine_season t, ⟨?_, rfl⟩, fun y hy => hy.2.symm⟩,
    by decide, by decide, by decide, by decide⟩
  unfold determine_season
  split_ifs <;> simp

/-- C5 counterexample: the claim maps 20 < t ≤ 26 to the EnergySaving
band, but at t = 26 the source's `26 <= temperature <= 30` elif fires
first and returns "Mild", not "Energy Saving". -/
theorem c5_band_boundary_counterexample :
    ¬ (determine_season 26 = "Energy Saving") := by decide

/-- C5 amended: t < 15 maps to Winter, 15 ≤ t ≤ 20 to the mild band,
20 < t < 26 to Energy Saving, 26 ≤ t ≤ 30 to the mild band, and t > 30
to Summer (the boundary 26 belongs to the mild band, not Energy
Saving). -/
theorem c5_amended_banded_policy (t : ℚ) :
    (t < 15 → determine_season t = "Winter") ∧
    (15 ≤ t → t ≤ 20 → determine_season t = "Mild") ∧
    (20 < t → t < 26 → determine_season t = "Energy Saving") ∧
    (26 ≤ t → t ≤ 30 → determine_season t = "Mild") ∧
    (30 < t → determine_season t = "Summer") :=
  ⟨season_of_winter t, season_of_mild_low t, season_of_energy_saving t,
    season_of_mild_high t, season_of_summer t⟩

/-- Witness for C5 amended: concrete temperatures 10 and 22 with the
hypotheses discharged numerically. -/
theorem c5_amended_banded_policy_witness :
    determine_season 10 = "Winter" ∧ determine_season 22 = "Energy Saving" :=
  ⟨(c5_amended_banded_policy 10).1 (by norm_num),
    (c5_amended_banded_policy 22).2.2.1 (by norm_num) (by norm_num)⟩

/-- C6: with `occupied = true`, the AC is ON exactly when the outdoor
temperature is strictly above the caller-supplied threshold, and OFF
exactly otherwise. -/
theorem c6_ac_iff_above_threshold
    (t h : ℚ) (aqi : Option ℤ) (pmin pmax thr : ℚ) (s : String) :
    (ac_status (determine_actions t h aqi pmin pmax thr s true) = "ON" ↔ t > thr) ∧
    (ac_status (determine_actions t h aqi pmin pmax thr s true) = "OFF" ↔ ¬ t > thr) := by
  unfold determine_actions ac_status
  split_ifs <;> simp_all

/-- C7: with `occupied = true`, in the "Winter" band humidity below 30
turns the humidifier ON, humidity above 50 turns the dehumidifier ON and
in between both stay OFF; in the "Summer" band the cutoffs are 40 and
60. -/
theorem c7_humidity_rules (t h : ℚ) (aqi : Option ℤ) (pmin pmax thr : ℚ) :
    (h < 30 →
      humidifier_status (determine_actions t h aqi pmin pmax thr "Winter" true) = "ON" ∧
      dehumidifier_status (determine_actions t h aqi pmin pmax thr "Winter" true) = "OFF") ∧
    (h > 50 →
      dehumidifier_status (determine_actions t h aqi pmin pmax thr "Winter" true) = "ON" ∧
      humidifier_status (determine_actions t h aqi pmin pmax thr "Winter" true) = "OFF") ∧
    (30 ≤ h → h ≤ 50 →
      humidifier_status (determine_actions t h aqi pmin pmax thr "Winter" true) = "OFF" ∧
      dehumidifier_status (determine_actions t h aqi pmin pmax thr "Winter" true) = "OFF") ∧
    (h < 40 →
      humidifier_status (determine_actions t h aqi pmin pmax thr "Summer" true) = "ON" ∧
      dehumidifier_status (determine_actions t h aqi pmin pmax thr "Summer" true) = "OFF") ∧
    (h > 60 →
      dehumidifier_status (determine_actions t h aqi pmin pmax thr "Summer" true) = "ON" ∧
      humidifier_status (determine_actions t h aqi pmin pmax thr "Summer" true) = "OFF") ∧
    (40 ≤ h → h ≤ 60 →
      humidifier_status (determine_actions t h aqi pmin pmax thr "Summer" true) = "OFF" ∧
      dehumidifier_status (determine_actions t h aqi pmin pmax thr "Summer" true) = "OFF") := by
  unfold determine_actions humidifier_status dehumidifier_status
  refine ⟨fun h1 => ?_, fun h1 => ?_, fun h1 h2 => ?_, fun h1 => ?_, fun h1 => ?_,
    fun h1 h2 => ?_⟩ <;>
    split_ifs <;> simp_all <;> linarith

/-- Witness for C7: in the Winter band with humidity 20 the humidifier is
ON and the dehumidifier is OFF. -/
theorem c7_humidity_rules_witness :
    humidifier_status (determine_actions 0 20 none 22 26 27 "Winter" true) = "ON" ∧
    dehumidifier_status (determine_actions 0 20 none 22 26 27 "Winter" true) = "OFF" :=
  (c7_humidity_rules 0 20 none 22 26 27).1 (by norm_num)

/-- C8: with everything but temperature fixed and `occupied = true`, the
AC output is monotone in temperature: if it is ON at t1 and t1 ≤ t2, it
is ON at t2, so once the threshold is crossed it never flips back. -/
theorem c8_ac_monotone_in_temperature
    (h : ℚ) (aqi : Option ℤ) (pmin pmax thr : ℚ) (s : String)
    (t1 t2 : ℚ) (hle : t1 ≤ t2)
    (hon : ac_status (determine_actions t1 h aqi pmin pmax thr s true) = "ON") :
    ac_status (determine_actions t2 h aqi pmin pmax thr s true) = "ON" := by
  unfold determine_actions ac_status at hon ⊢
  split_ifs at hon ⊢ with h1 h2 <;> simp_all <;> linarith

/-- Witness for C8: at threshold 27 the AC is ON at 28, so it is ON at
29. -/
theorem c8_ac_monotone_in_temperature_witness :
    ac_status (determine_actions 29 50 none 22 26 27 "Mild" true) = "ON" :=
  c8_ac_monotone_in_temperature 50 none 22 26 27 "Mild" 28 29 (by norm_num) (by decide)

/-- C9: with `occupied = true` and a band that is neither "Winter" nor
"Summer" (so "Mild" or "Energy Saving"), the humidifier and dehumidifier
stay OFF for every humidity value. -/
theorem c9_other_bands_humidity_off
    (t h : ℚ) (aqi : Option ℤ) (pmin pmax thr : ℚ) (s : String)
    (hw : s ≠ "Winter") (hsm : s ≠ "Summer") :
    humidifier_status (determine_actions t h aqi pmin pmax thr s true) = "OFF" ∧
    dehumidifier_status (determine_actions t h aqi pmin pmax thr s true) = "OFF" := by
  unfold determine_actions humidifier_status dehumidifier_status
  simp [hw, hsm]

/-- Witness for C9: the "Mild" band at humidity 50 keeps both OFF. -/
theorem c9_other_bands_humidity_off_witness :
    humidifier_status (determine_actions 22 50 none 22 26 27 "Mild" true) = "OFF" ∧
    dehumidifier_status (determine_actions 22 50 none 22 26 27 "Mild" true) = "OFF" :=
  c9_other_bands_humidity_off 22 50 none 22 26 27 "Mild" (by decide) (by decide)

/-- C10: the returned device-state tuple does not depend on
`preferred_min` and `preferred_max`: two calls differing only in those
two arguments return identical tuples. -/
theorem c10_preferred_minmax_noninterference
    (t h : ℚ) (aqi : Option ℤ) (pmin1 pmax1 pmin2 pmax2 thr : ℚ)
    (s : String) (occ : Bool) :
    determine_actions t h aqi pmin1 pmax1 thr s occ =
      determine_actions t h aqi pmin2 pmax2 thr s occ := rfl
